import Mathlib

/-!
Verification of the MCP tool server (`index.ts`, rondweb/remote-mcp-server).

The development shallowly embeds the five tool handlers registered in
`MyMCP.init` — `fetchAudioAndSave`, `summarizeText`, `scrapeUrlAndSublinks`,
`uploadAudioToR2`, `getFromCloudflareKV` — as pure Lean functions.  Network
effects are abstracted by an oracle (`HttpOutcome`) describing the upstream
response of each axios call; axios's resolve/reject behaviour (reject on any
non-2xx status, with the status and the provider-supplied error message kept
on the rejection) is modelled explicitly by `axiosReq`.  Thrown JS errors are
values of type `AxiosError` carried on the `Except` error channel; each
handler is written as a `...Try` function (the `try` block, errors propagate)
plus a wrapper performing the `catch` block's formatting.
-/

/-- A resource content item's payload: `uri` plus the optional `text`, `blob`
and `mimeType` fields that the various handlers populate. -/
structure ResourceDescriptor where
  uri : String
  text : Option String := none
  blob : Option String := none
  mimeType : Option String := none
deriving Repr, DecidableEq

/-- One element of a tool result's `content` array: either a text item or a
resource item. -/
inductive ContentItem where
  | text (text : String)
  | resource (resource : ResourceDescriptor)
deriving Repr, DecidableEq

/-- The uniform envelope every tool handler returns. -/
structure ToolResult where
  content : List ContentItem
deriving Repr, DecidableEq

/-- A thrown JS error as observed by the handlers' catch blocks:
`message`, `error.response?.status` and `error.response?.data?.errors?.[0]?.message`. -/
structure AxiosError where
  message : String
  responseStatus : Option Nat := none
  providerMessage : Option String := none
deriving Repr, DecidableEq

/-- The upstream world's answer to one outbound HTTP request: either a
response (status, status text, parsed body) or a network-level failure. -/
inductive HttpOutcome (α : Type) where
  | resp (status : Nat) (statusText : String) (data : α)
  | netErr (message : String)
deriving Repr, DecidableEq

/-- The message axios puts on a rejection caused by a non-2xx status. -/
def statusFailureMessage (status : Nat) : String :=
  "Request failed with status code " ++ toString status

/-- axios semantics: a response with a 2xx status resolves; any other status
rejects with an error carrying the status and the provider error message read
off the response body; a network failure rejects with its own message. -/
def axiosReq {α : Type} (o : HttpOutcome α) (errorsHeadOf : α → Option String) :
    Except AxiosError (Nat × String × α) :=
  match o with
  | HttpOutcome.netErr m => Except.error ⟨m, none, none⟩
  | HttpOutcome.resp status statusText data =>
    if 200 ≤ status ∧ status < 300 then Except.ok (status, statusText, data)
    else Except.error ⟨statusFailureMessage status, some status, errorsHeadOf data⟩

/-- An error thrown locally by a handler (`throw new Error(msg)`): it has no
attached HTTP response. -/
def localErr (m : String) : AxiosError := ⟨m, none, none⟩

/-- JS `a || b` on an optional string: the fallback is used when the option is
absent or the string is empty (falsy). -/
def jsOr (o : Option String) (fallback : String) : String :=
  match o with
  | some s => if s = "" then fallback else s
  | none => fallback

/-- JS truthiness of an optional string: `some s` survives only for nonempty `s`. -/
def jsTruthyStr : Option String → Option String
  | some s => if s = "" then none else some s
  | none => none

/-- The catch blocks' best-effort message:
`error.response?.data?.errors?.[0]?.message || error.message`. -/
def bestEffort (e : AxiosError) : String := jsOr e.providerMessage e.message

/-- `isPrefixB pat l` decides whether the char list `pat` is an initial
segment of `l` (models JS `String.prototype.startsWith`). -/
def isPrefixB : List Char → List Char → Bool
  | [], _ => true
  | _ :: _, [] => false
  | a :: as, b :: bs => a == b && isPrefixB as bs

/-- `listContains l pat` decides whether `pat` occurs contiguously in `l`
(models JS `String.prototype.includes`). -/
def listContains : List Char → List Char → Bool
  | l, pat =>
    isPrefixB pat l ||
      match l with
      | [] => false
      | _ :: rest => listContains rest pat

/-- Substring test on strings (JS `includes`). -/
def strContainsB (s pat : String) : Bool := listContains s.data pat.data

/-- Propositional substring containment, used to state the spec's
"the result text contains …" properties. -/
def strContains (s pat : String) : Prop :=
  ∃ pre suf : List Char, s.data = pre ++ pat.data ++ suf

/-- Whitespace trimming on both ends (models JS `String.prototype.trim`). -/
def trimStr (s : String) : String :=
  String.mk (((s.data.dropWhile Char.isWhitespace).reverse.dropWhile Char.isWhitespace).reverse)

/- ### fetchAudioAndSave -/

/-- The TTS endpoint's `result` object: `result.audio`, a base64 string. -/
structure TtsResult where
  audio : Option String := none
deriving Repr, DecidableEq

/-- Body of the TTS endpoint's response (`response.data`): the optional
`result` object plus the optional `errors[0].message` read on failures. -/
structure TtsData where
  result : Option TtsResult := none
  errorsHead : Option String := none
deriving Repr, DecidableEq

/-- The `try` block of the `fetchAudioAndSave` handler.  The outbound URL,
payload and credential headers only shape the request and are absorbed by the
oracle `o`; `audioId` stands for the generated `uuid.v4()`. -/
def fetchAudioAndSaveTry (o : HttpOutcome TtsData) (audioId : String) :
    Except AxiosError ToolResult :=
  match axiosReq o (fun d => d.errorsHead) with
  | Except.error e => Except.error e
  | Except.ok (status, statusText, data) =>
    if status = 200 then
      match jsTruthyStr (data.result.bind (fun r => r.audio)) with
      | some audioBase64 =>
        Except.ok ⟨[ContentItem.text ("Generated audio ID: " ++ audioId),
          ContentItem.resource
            ⟨"data:audio/mp3;base64," ++ audioBase64, none, some audioBase64, some "audio/mp3"⟩]⟩
      | none => Except.error (localErr "Audio data not found in the response.")
    else
      Except.error (localErr ("Request failed: " ++ toString status ++ " - " ++ statusText))

/-- The `fetchAudioAndSave` handler: `try` block plus its catch block. -/
def fetchAudioAndSave (o : HttpOutcome TtsData) (audioId : String) : ToolResult :=
  match fetchAudioAndSaveTry o audioId with
  | Except.ok r => r
  | Except.error e => ⟨[ContentItem.text ("Error: " ++ bestEffort e)]⟩

/- ### summarizeText -/

/-- The summarization endpoint's `result` object: `result.summary`. -/
structure SummaryResult where
  summary : Option String := none
deriving Repr, DecidableEq

/-- Body of the summarization endpoint's response. -/
structure SummaryData where
  result : Option SummaryResult := none
  errorsHead : Option String := none
deriving Repr, DecidableEq

/-- The `try` block of the `summarizeText` handler. -/
def summarizeTextTry (o : HttpOutcome SummaryData) : Except AxiosError ToolResult :=
  match axiosReq o (fun d => d.errorsHead) with
  | Except.error e => Except.error e
  | Except.ok (status, statusText, data) =>
    if status = 200 then
      match jsTruthyStr (data.result.bind (fun r => r.summary)) with
      | some summary => Except.ok ⟨[ContentItem.text summary]⟩
      | none => Except.error (localErr "Summary data not found in the response.")
    else
      Except.error (localErr ("Request failed: " ++ toString status ++ " - " ++ statusText))

/-- The `summarizeText` handler: `try` block plus its catch block. -/
def summarizeText (o : HttpOutcome SummaryData) : ToolResult :=
  match summarizeTextTry o with
  | Except.ok r => r
  | Except.error e => ⟨[ContentItem.text ("Error: " ++ bestEffort e)]⟩

/- ### uploadAudioToR2 -/

/-- Public base URL of the R2 bucket. -/
def R2_URL : String := "https://pub-3bf40eb073024dc2846e1518b851c583.r2.dev"

/-- Content-type resolution of `uploadAudioToR2`: a declared (truthy) content
type wins; otherwise a base64 payload starting with the RIFF/WAVE signature
prefix `UklGR` is `audio/wav`, and anything else defaults to `audio/mp3`. -/
def detectContentType (fileData : String) (contentType : Option String) : String :=
  match jsTruthyStr contentType with
  | some ct => ct
  | none =>
    if isPrefixB "UklGR".data fileData.data then "audio/wav" else "audio/mp3"

/-- File-extension derivation of `uploadAudioToR2`:
`finalContentType.includes('wav') ? 'wav' : 'mp3'`. -/
def extensionFor (finalContentType : String) : String :=
  if strContainsB finalContentType "wav" then "wav" else "mp3"

/-- Body of the R2 upload response; only its `errors[0].message` is ever read. -/
structure UploadData where
  errorsHead : Option String := none
deriving Repr, DecidableEq

/-- `fileName || `audio-${uuid.v4()}.${extension}``: the target object name of
the upload. -/
def finalUploadFileName (fileData : String) (fileName contentType : Option String)
    (uuidStr : String) : String :=
  match jsTruthyStr fileName with
  | some n => n
  | none => "audio-" ++ uuidStr ++ "." ++ extensionFor (detectContentType fileData contentType)

/-- The `try` block of the `uploadAudioToR2` handler.  The Buffer conversion
and request headers only shape the outbound PUT and are absorbed by the
oracle; `uuidStr` stands for the generated `uuid.v4()`. -/
def uploadAudioToR2Try (o : HttpOutcome UploadData) (fileData : String)
    (fileName : Option String) (contentType : Option String) (uuidStr : String) :
    Except AxiosError ToolResult :=
  let finalContentType := detectContentType fileData contentType
  let finalFileName := finalUploadFileName fileData fileName contentType uuidStr
  match axiosReq o (fun d => d.errorsHead) with
  | Except.error e => Except.error e
  | Except.ok (status, statusText, _data) =>
    if status = 200 ∨ status = 201 then
      let fileUrl := R2_URL ++ "/" ++ finalFileName
      Except.ok ⟨[ContentItem.text
          ("File successfully uploaded to R2 storage.\nFile: " ++ finalFileName ++
            "\nURL: " ++ fileUrl ++ "\nType: " ++ finalContentType),
        ContentItem.resource ⟨fileUrl, none, some fileData, some finalContentType⟩]⟩
    else
      Except.error (localErr ("Upload failed: " ++ toString status ++ " - " ++ statusText))

/-- The `uploadAudioToR2` handler: `try` block plus its catch block (note the
tool-specific message prefix). -/
def uploadAudioToR2 (o : HttpOutcome UploadData) (fileData : String)
    (fileName : Option String) (contentType : Option String) (uuidStr : String) : ToolResult :=
  match uploadAudioToR2Try o fileData fileName contentType uuidStr with
  | Except.ok r => r
  | Except.error e => ⟨[ContentItem.text ("Error uploading to R2: " ++ bestEffort e)]⟩

/- ### getFromCloudflareKV -/

/-- The raw value stored under a KV key: `response.data` is either a string or
some other JSON value (whose `JSON.stringify` rendering we carry directly). -/
inductive KVValue where
  | str (s : String)
  | other (jsonText : String)
deriving Repr, DecidableEq

/-- `typeof value === 'string' ? value : JSON.stringify(value)`. -/
def KVValue.render : KVValue → String
  | KVValue.str s => s
  | KVValue.other j => j

/-- Body of the KV read response: the raw value, plus the provider error
message present when the body is an error object. -/
structure KVData where
  value : KVValue := KVValue.str ""
  errorsHead : Option String := none
deriving Repr, DecidableEq

/-- Fallback KV namespace id configured at process start. -/
def CLOUDFLARE_NAMESPACE_ID : String := "your-namespace-id"

/-- The distinguished not-found message of the KV tool. -/
def kvNotFoundText (key : String) : String :=
  "Key '" ++ key ++ "' not found in Cloudflare KV namespace."

/-- The `try` block of the `getFromCloudflareKV` handler.  The `else if
response.status === 404` arm of the source is kept even though axios only
resolves 2xx responses. -/
def getFromCloudflareKVTry (o : HttpOutcome KVData) (key : String)
    (namespaceId : Option String) : Except AxiosError ToolResult :=
  let finalNamespaceId :=
    match jsTruthyStr namespaceId with
    | some n => n
    | none => CLOUDFLARE_NAMESPACE_ID
  match axiosReq o (fun d => d.errorsHead) with
  | Except.error e => Except.error e
  | Except.ok (status, statusText, data) =>
    if status = 200 then
      Except.ok ⟨[ContentItem.text
          ("Successfully retrieved value from Cloudflare KV.\nKey: " ++ key ++
            "\nValue: " ++ KVValue.render data.value),
        ContentItem.resource
          ⟨"kv://" ++ finalNamespaceId ++ "/" ++ key, some (KVValue.render data.value),
            none, some "text/plain"⟩]⟩
    else if status = 404 then
      Except.ok ⟨[ContentItem.text (kvNotFoundText key)]⟩
    else
      Except.error (localErr ("Request failed: " ++ toString status ++ " - " ++ statusText))

/-- The `getFromCloudflareKV` handler: `try` block plus its catch block, which
special-cases a rejection whose response status is 404 before the generic
error formatting. -/
def getFromCloudflareKV (o : HttpOutcome KVData) (key : String)
    (namespaceId : Option String) : ToolResult :=
  match getFromCloudflareKVTry o key namespaceId with
  | Except.ok r => r
  | Except.error e =>
    if e.responseStatus = some 404 then ⟨[ContentItem.text (kvNotFoundText key)]⟩
    else ⟨[ContentItem.text ("Error retrieving from Cloudflare KV: " ++ bestEffort e)]⟩

/- ### scrapeUrlAndSublinks -/

/-- The relevant projections of a fetched page after `cheerio.load`:
`$("body").text()` and the `href` attributes of `$("a[href]")` in document
order. -/
structure Page where
  bodyText : String
  hrefs : List String
deriving Repr, DecidableEq

/-- The crawl payload serialized into the resource item:
`{main_url, main_text, sublinks}`. -/
structure CrawlResult where
  main_url : String
  main_text : String
  sublinks : List (String × String)
deriving Repr, DecidableEq

/-- Insertion into a JS object used as a string-keyed map: assigning an
existing key overwrites its value in place, a fresh key is appended. -/
def insertKV : List (String × String) → String → String → List (String × String)
  | [], k, v => [(k, v)]
  | p :: rest, k, v => if p.1 = k then (k, v) :: rest else p :: insertKV rest k v

/-- Lookup in the string-keyed map. -/
def lookupKV : List (String × String) → String → Option String
  | [], _ => none
  | p :: rest, k => if p.1 = k then some p.2 else lookupKV rest k

/-- The value recorded for one resolved sublink URL: the inner `try` fetches
and extracts the page text, the inner `catch` records an error description
instead — at this level a failure is data, never control flow. -/
def fetchRender (get : String → HttpOutcome Page) (sublinkUrl : String) : String :=
  match axiosReq (get sublinkUrl) (fun _ => none) with
  | Except.ok (_, _, subPage) => trimStr subPage.bodyText
  | Except.error e => "Error fetching sublink: " ++ e.message

/-- The `for (const sublink of sublinks)` loop.  `new URL(sublink, url)` runs
*outside* the inner try, so a resolution failure propagates to the outer
catch and aborts the whole crawl; a fetch failure only shapes that link's
entry. -/
def crawlLoop (get : String → HttpOutcome Page)
    (resolve : String → String → Except String String) (url : String) :
    List String → List (String × String) → Except String (List (String × String))
  | [], acc => Except.ok acc
  | s :: rest, acc =>
    match resolve s url with
    | Except.error e => Except.error e
    | Except.ok sublinkUrl =>
      crawlLoop get resolve url rest (insertKV acc sublinkUrl (fetchRender get sublinkUrl))

/-- The `try` block of the `scrapeUrlAndSublinks` handler: fetch the root,
extract its trimmed body text and first five hrefs, then run the sublink
loop.  The error channel carries the caught error's message. -/
def scrapeCore (get : String → HttpOutcome Page)
    (resolve : String → String → Except String String) (url : String) :
    Except String CrawlResult :=
  match axiosReq (get url) (fun _ => none) with
  | Except.error e => Except.error e.message
  | Except.ok (_, _, page) =>
    let mainText := trimStr page.bodyText
    let sublinks := page.hrefs.take 5
    match crawlLoop get resolve url sublinks [] with
    | Except.error e => Except.error e
    | Except.ok sublinkTexts => Except.ok ⟨url, mainText, sublinkTexts⟩

/-- JSON string escaping as performed by `JSON.stringify` on BMP text. -/
def jsonEscapeChar (c : Char) : String :=
  if c = '"' then "\\\""
  else if c = '\\' then "\\\\"
  else if c = '\n' then "\\n"
  else if c = '\r' then "\\r"
  else if c = '\t' then "\\t"
  else String.mk [c]

/-- A JSON string literal. -/
def jsonStr (s : String) : String :=
  "\"" ++ String.join (s.data.map jsonEscapeChar) ++ "\""

/-- `JSON.stringify({main_url, main_text, sublinks})`. -/
def encodeCrawlResult (r : CrawlResult) : String :=
  "\x7b\"main_url\":" ++ jsonStr r.main_url ++
    ",\"main_text\":" ++ jsonStr r.main_text ++
    ",\"sublinks\":\x7b" ++
    String.intercalate "," (r.sublinks.map (fun p => jsonStr p.1 ++ ":" ++ jsonStr p.2)) ++
    "\x7d\x7d"

/-- The `scrapeUrlAndSublinks` handler: on success a single resource item
carrying the serialized crawl payload, on a caught error a single text item. -/
def scrapeUrlAndSublinks (get : String → HttpOutcome Page)
    (resolve : String → String → Except String String) (url : String) : ToolResult :=
  match scrapeCore get resolve url with
  | Except.ok r =>
    ⟨[ContentItem.resource ⟨url, some (encodeCrawlResult r), none, none⟩]⟩
  | Except.error m => ⟨[ContentItem.text ("Error: " ++ m)]⟩

/- ### Auxiliary observers of the crawl loop -/

/-- The total value of the sublink accumulator when every resolution in the
list succeeds: the same fold the loop performs, with failed resolutions
skipped (the loop never reaches that case when all resolutions succeed). -/
def crawlEntries (get : String → HttpOutcome Page)
    (resolve : String → String → Except String String) (url : String) :
    List String → List (String × String) → List (String × String)
  | [], acc => acc
  | s :: rest, acc =>
    match resolve s url with
    | Except.error _ => crawlEntries get resolve url rest acc
    | Except.ok u => crawlEntries get resolve url rest (insertKV acc u (fetchRender get u))

/-- The absolute URLs produced by `new URL(sublink, url)` across the loop, in
iteration order: exactly the URLs the loop hands to `axios.get`.  The first
resolution failure short-circuits, as it does in the loop. -/
def resolvedSublinks (resolve : String → String → Except String String) (url : String) :
    List String → Except String (List String)
  | [] => Except.ok []
  | s :: rest =>
    match resolve s url with
    | Except.error e => Except.error e
    | Except.ok u =>
      match resolvedSublinks resolve url rest with
      | Except.error e => Except.error e
      | Except.ok us => Except.ok (u :: us)

/- ### Lemmas about the string-keyed map -/

theorem lookupKV_insertKV_self (m : List (String × String)) (k v : String) :
    lookupKV (insertKV m k v) k = some v := by
  induction m with
  | nil => simp [insertKV, lookupKV]
  | cons p rest ih =>
    by_cases h : p.1 = k
    · simp [insertKV, lookupKV, h]
    · simp [insertKV, lookupKV, h, ih]

theorem lookupKV_insertKV_ne (m : List (String × String)) (k k' v : String) (h : k ≠ k') :
    lookupKV (insertKV m k' v) k = lookupKV m k := by
  induction m with
  | nil =>
    simp only [insertKV, lookupKV]
    rw [if_neg (Ne.symm h)]
  | cons p rest ih =>
    by_cases hp : p.1 = k'
    · simp only [insertKV, if_pos hp, lookupKV]
      rw [if_neg (Ne.symm h),
        if_neg (fun hk : p.1 = k => (Ne.symm h) (hp.symm.trans hk))]
    · simp only [insertKV, if_neg hp, lookupKV]
      by_cases hk : p.1 = k
      · rw [if_pos hk, if_pos hk]
      · rw [if_neg hk, if_neg hk, ih]

theorem lookupKV_insertKV_isSome (m : List (String × String)) (k k' v : String)
    (h : (lookupKV (insertKV m k' v) k).isSome = true) :
    k = k' ∨ (lookupKV m k).isSome = true := by
  by_cases hk : k = k'
  · exact Or.inl hk
  · right
    rw [lookupKV_insertKV_ne m k k' v hk] at h
    exact h

theorem insertKV_fresh (m : List (String × String)) (k v : String)
    (h : k ∉ m.map Prod.fst) : insertKV m k v = m ++ [(k, v)] := by
  induction m with
  | nil => rfl
  | cons p rest ih =>
    simp only [List.map_cons, List.mem_cons] at h
    push_neg at h
    simp only [insertKV]
    rw [if_neg (Ne.symm h.1), ih h.2]
    rfl

/- ### Lemmas about the crawl loop -/

theorem crawlLoop_eq_entries (get : String → HttpOutcome Page)
    (resolve : String → String → Except String String) (url : String) :
    ∀ (list : List String) (acc : List (String × String)),
      (∀ s ∈ list, ∃ u, resolve s url = Except.ok u) →
      crawlLoop get resolve url list acc =
        Except.ok (crawlEntries get resolve url list acc)
  | [], _, _ => rfl
  | s :: rest, acc, h => by
    obtain ⟨u, hu⟩ := h s (List.mem_cons_self s rest)
    simp only [crawlLoop, crawlEntries, hu]
    exact crawlLoop_eq_entries get resolve url rest _
      (fun s' hs' => h s' (List.mem_cons_of_mem _ hs'))

theorem crawlLoop_ok_resolve (get : String → HttpOutcome Page)
    (resolve : String → String → Except String String) (url : String) :
    ∀ (list : List String) (acc out : List (String × String)),
      crawlLoop get resolve url list acc = Except.ok out →
      ∀ s ∈ list, ∃ u, resolve s url = Except.ok u
  | [], _, _, _ => by intro s hs; cases hs
  | s0 :: rest, acc, out, h => by
    intro s hs
    cases hr : resolve s0 url with
    | error e => rw [crawlLoop, hr] at h; cases h
    | ok u =>
      rw [crawlLoop, hr] at h
      rcases List.mem_cons.mp hs with heq | hmem
      · exact ⟨u, heq ▸ hr⟩
      · exact crawlLoop_ok_resolve get resolve url rest _ out h s hmem

theorem crawlEntries_preserve (get : String → HttpOutcome Page)
    (resolve : String → String → Except String String) (url : String) :
    ∀ (list : List String) (acc : List (String × String)) (u : String),
      lookupKV acc u = some (fetchRender get u) →
      lookupKV (crawlEntries get resolve url list acc) u = some (fetchRender get u)
  | [], _, _, h => h
  | s :: rest, acc, u, h => by
    cases hr : resolve s url with
    | error e =>
      simp only [crawlEntries, hr]
      exact crawlEntries_preserve get resolve url rest acc u h
    | ok u' =>
      simp only [crawlEntries, hr]
      refine crawlEntries_preserve get resolve url rest _ u ?_
      by_cases he : u' = u
      · subst he; exact lookupKV_insertKV_self acc u' (fetchRender get u')
      · rw [lookupKV_insertKV_ne acc u u' (fetchRender get u') (fun hk => he hk.symm)]
        exact h

theorem crawlEntries_mem (get : String → HttpOutcome Page)
    (resolve : String → String → Except String String) (url : String) :
    ∀ (list : List String) (acc : List (String × String)) (s u : String),
      s ∈ list → resolve s url = Except.ok u →
      lookupKV (crawlEntries get resolve url list acc) u = some (fetchRender get u)
  | [], _, _, _, hs, _ => by cases hs
  | s0 :: rest, acc, s, u, hs, hu => by
    rcases List.mem_cons.mp hs with heq | hmem
    · subst heq
      simp only [crawlEntries, hu]
      exact crawlEntries_preserve get resolve url rest _ u
        (lookupKV_insertKV_self acc u (fetchRender get u))
    · cases hr : resolve s0 url with
      | error e =>
        simp only [crawlEntries, hr]
        exact crawlEntries_mem get resolve url rest acc s u hmem hu
      | ok u0 =>
        simp only [crawlEntries, hr]
        exact crawlEntries_mem get resolve url rest _ s u hmem hu

theorem crawlEntries_keys (get : String → HttpOutcome Page)
    (resolve : String → String → Except String String) (url : String) :
    ∀ (list : List String) (acc : List (String × String)) (k : String),
      (lookupKV (crawlEntries get resolve url list acc) k).isSome = true →
      (lookupKV acc k).isSome = true ∨ ∃ s ∈ list, resolve s url = Except.ok k
  | [], _, _, h => Or.inl h
  | s0 :: rest, acc, k, h => by
    cases hr : resolve s0 url with
    | error e =>
      rw [crawlEntries, hr] at h
      rcases crawlEntries_keys get resolve url rest acc k h with hacc | ⟨s, hs, hres⟩
      · exact Or.inl hacc
      · exact Or.inr ⟨s, List.mem_cons_of_mem _ hs, hres⟩
    | ok u =>
      rw [crawlEntries, hr] at h
      rcases crawlEntries_keys get resolve url rest _ k h with hacc | ⟨s, hs, hres⟩
      · rcases lookupKV_insertKV_isSome acc k u (fetchRender get u) hacc with heq | hin
        · exact Or.inr ⟨s0, List.mem_cons_self s0 rest, heq ▸ hr⟩
        · exact Or.inl hin
      · exact Or.inr ⟨s, List.mem_cons_of_mem _ hs, hres⟩

theorem crawlEntries_keys_of_nodup (get : String → HttpOutcome Page)
    (resolve : String → String → Except String String) (url : String) :
    ∀ (list us : List String) (acc : List (String × String)),
      resolvedSublinks resolve url list = Except.ok us →
      (acc.map Prod.fst ++ us).Nodup →
      (crawlEntries get resolve url list acc).map Prod.fst = acc.map Prod.fst ++ us
  | [], us, acc, hres, _ => by
    cases hres
    simp [crawlEntries]
  | s0 :: rest, us, acc, hres, hnd => by
    cases hr : resolve s0 url with
    | error e => rw [resolvedSublinks, hr] at hres; cases hres
    | ok u =>
      rw [resolvedSublinks, hr] at hres
      cases hrest : resolvedSublinks resolve url rest with
      | error e => rw [hrest] at hres; cases hres
      | ok us' =>
        rw [hrest] at hres
        cases hres
        have hfresh : u ∉ acc.map Prod.fst := by
          rcases List.nodup_append.mp hnd with ⟨_, _, hdisj⟩
          intro hmem
          exact hdisj hmem (List.mem_cons_self u us')
        simp only [crawlEntries, hr, insertKV_fresh acc u (fetchRender get u) hfresh]
        have hkeys : (acc ++ [(u, fetchRender get u)]).map Prod.fst = acc.map Prod.fst ++ [u] := by
          simp
        have hnd' : ((acc ++ [(u, fetchRender get u)]).map Prod.fst ++ us').Nodup := by
          rw [hkeys, List.append_assoc]
          simpa using hnd
        rw [crawlEntries_keys_of_nodup get resolve url rest us' _ hrest hnd', hkeys,
          List.append_assoc]
        rfl

theorem resolvedSublinks_length (resolve : String → String → Except String String)
    (url : String) :
    ∀ (list us : List String), resolvedSublinks resolve url list = Except.ok us →
      us.length = list.length
  | [], us, h => by cases h; rfl
  | s :: rest, us, h => by
    cases hr : resolve s url with
    | error e => rw [resolvedSublinks, hr] at h; cases h
    | ok u =>
      rw [resolvedSublinks, hr] at h
      cases hrest : resolvedSublinks resolve url rest with
      | error e => rw [hrest] at h; cases h
      | ok us' =>
        rw [hrest] at h
        cases h
        simp [resolvedSublinks_length resolve url rest us' hrest]

theorem resolvedSublinks_ok_resolve (resolve : String → String → Except String String)
    (url : String) :
    ∀ (list us : List String), resolvedSublinks resolve url list = Except.ok us →
      ∀ s ∈ list, ∃ u, resolve s url = Except.ok u
  | [], _, _ => by intro s hs; cases hs
  | s0 :: rest, us, h => by
    intro s hs
    cases hr : resolve s0 url with
    | error e => rw [resolvedSublinks, hr] at h; cases h
    | ok u =>
      rw [resolvedSublinks, hr] at h
      cases hrest : resolvedSublinks resolve url rest with
      | error e => rw [hrest] at h; cases h
      | ok us' =>
        rcases List.mem_cons.mp hs with heq | hmem
        · exact ⟨u, heq ▸ hr⟩
        · exact resolvedSublinks_ok_resolve resolve url rest us' hrest s hmem

theorem resolvedSublinks_mem (resolve : String → String → Except String String)
    (url : String) :
    ∀ (list us : List String), resolvedSublinks resolve url list = Except.ok us →
      ∀ (s u : String), s ∈ list → resolve s url = Except.ok u → u ∈ us
  | [], _, _ => by intro s u hs; cases hs
  | s0 :: rest, us, h => by
    intro s u hs hu
    cases hr : resolve s0 url with
    | error e => rw [resolvedSublinks, hr] at h; cases h
    | ok u0 =>
      rw [resolvedSublinks, hr] at h
      cases hrest : resolvedSublinks resolve url rest with
      | error e => rw [hrest] at h; cases h
      | ok us' =>
        rw [hrest] at h
        cases h
        rcases List.mem_cons.mp hs with heq | hmem
        · subst heq
          rw [hr] at hu
          cases hu
          exact List.mem_cons_self u us'
        · exact List.mem_cons_of_mem _
            (resolvedSublinks_mem resolve url rest us' hrest s u hmem hu)

/- ### Substring lemmas -/

theorem strData_append (a b : String) : (a ++ b).data = a.data ++ b.data := rfl

theorem strContains_append_left (a b pat : String) (h : strContains a pat) :
    strContains (a ++ b) pat := by
  obtain ⟨pre, suf, hd⟩ := h
  exact ⟨pre, suf ++ b.data, by rw [strData_append, hd]; simp [List.append_assoc]⟩

theorem strContains_append_right (a b pat : String) (h : strContains b pat) :
    strContains (a ++ b) pat := by
  obtain ⟨pre, suf, hd⟩ := h
  exact ⟨a.data ++ pre, suf, by rw [strData_append, hd]; simp [List.append_assoc]⟩

theorem strContains_error_head (m : String) : strContains ("Error: " ++ m) "Error" :=
  strContains_append_left "Error: " m "Error" ⟨[], [':', ' '], by decide⟩

theorem strContains_kv_error (m : String) :
    strContains ("Error retrieving from Cloudflare KV: " ++ m) "Error" :=
  strContains_append_left "Error retrieving from Cloudflare KV: " m "Error"
    ⟨[], " retrieving from Cloudflare KV: ".data, by decide⟩

theorem strContains_not_found (key : String) : strContains (kvNotFoundText key) "not found" := by
  refine ⟨"Key '".data ++ key.data ++ "' ".data,
    " in Cloudflare KV namespace.".data, ?_⟩
  simp [kvNotFoundText, strData_append, List.append_assoc]

theorem kv_error_text_ne_not_found (m key : String) :
    "Error retrieving from Cloudflare KV: " ++ m ≠ kvNotFoundText key := by
  intro h
  have hd : ("Error retrieving from Cloudflare KV: " ++ m).data.head? =
      (kvNotFoundText key).data.head? := congrArg (fun s => s.data.head?) h
  have h1 : ("Error retrieving from Cloudflare KV: " ++ m).data.head? = some 'E' := rfl
  have h2 : (kvNotFoundText key).data.head? = some 'K' := rfl
  rw [h1, h2] at hd
  exact absurd hd (by decide)

/- ### The tool-invocation gateway (validation layer) -/

/-- A raw JSON field value arriving in a tool invocation. -/
inductive RawValue where
  | str (s : String)
  | num (n : Int)
  | boolean (b : Bool)
deriving Repr, DecidableEq

/-- Field types appearing in this server's tool schemas (all zod strings). -/
inductive FieldType where
  | str
deriving Repr, DecidableEq

/-- Whether a raw value has the declared type. -/
def typeMatches : FieldType → RawValue → Bool
  | FieldType.str, RawValue.str _ => true
  | FieldType.str, _ => false

/-- The reason reported for a type mismatch. -/
def typeMismatchReason : FieldType → RawValue → String
  | FieldType.str, _ => "Expected string"

/-- One field of a tool's input schema: name, type, optionality and the
declared default. -/
structure FieldSpec where
  fieldName : String
  fieldType : FieldType
  optional : Bool
  defaultVal : Option RawValue
deriving Repr, DecidableEq

/-- Lookup of a field in the raw input object. -/
def lookupRaw : List (String × RawValue) → String → Option RawValue
  | [], _ => none
  | p :: rest, k => if p.1 = k then some p.2 else lookupRaw rest k

/-- Modelled from the spec: the gateway's field-by-field input validation
(performed by the MCP SDK against the registered zod schema, outside this
repository's sources) — a missing optional field receives its declared
default, a missing required field fails validation, and a type mismatch
fails validation; the failure names the field and the reason. -/
def validateInput : List FieldSpec → List (String × RawValue) →
    Except (String × String) (List (String × RawValue))
  | [], _ => Except.ok []
  | f :: rest, raw =>
    match lookupRaw raw f.fieldName with
    | some v =>
      if typeMatches f.fieldType v then
        match validateInput rest raw with
        | Except.error err => Except.error err
        | Except.ok out => Except.ok ((f.fieldName, v) :: out)
      else Except.error (f.fieldName, typeMismatchReason f.fieldType v)
    | none =>
      if f.optional then
        match validateInput rest raw with
        | Except.error err => Except.error err
        | Except.ok out =>
          match f.defaultVal with
          | some d => Except.ok ((f.fieldName, d) :: out)
          | none => Except.ok out
      else Except.error (f.fieldName, "Required")

/-- Modelled from the spec: `invoke(toolName, rawInput)` for one registered
tool — a validation failure surfaces as a normal ToolResult whose single
content item is `Text "Error: <field> <reason>"`; valid input is passed to
the handler.  No failure path escapes as a protocol-level error: the function
is total into `ToolResult`. -/
def invoke (schema : List FieldSpec) (handler : List (String × RawValue) → ToolResult)
    (raw : List (String × RawValue)) : ToolResult :=
  match validateInput schema raw with
  | Except.error (f, reason) => ⟨[ContentItem.text ("Error: " ++ f ++ " " ++ reason)]⟩
  | Except.ok validated => handler validated

/-- Schema of `fetchAudioAndSave`: `{text?: string = "", lang?: string = "en"}`. -/
def fetchAudioAndSaveSchema : List FieldSpec :=
  [⟨"text", FieldType.str, true, some (RawValue.str "")⟩,
   ⟨"lang", FieldType.str, true, some (RawValue.str "en")⟩]

/-- Schema of `summarizeText`: `{text: string}`. -/
def summarizeTextSchema : List FieldSpec := [⟨"text", FieldType.str, false, none⟩]

/-- Schema of `scrapeUrlAndSublinks`: `{url: string}`. -/
def scrapeUrlAndSublinksSchema : List FieldSpec := [⟨"url", FieldType.str, false, none⟩]

/-- Schema of `uploadAudioToR2`: `{fileData: string, fileName?, contentType?}`. -/
def uploadAudioToR2Schema : List FieldSpec :=
  [⟨"fileData", FieldType.str, false, none⟩,
   ⟨"fileName", FieldType.str, true, none⟩,
   ⟨"contentType", FieldType.str, true, none⟩]

/-- Schema of `getFromCloudflareKV`: `{key: string, namespaceId?}`. -/
def getFromCloudflareKVSchema : List FieldSpec :=
  [⟨"key", FieldType.str, false, none⟩,
   ⟨"namespaceId", FieldType.str, true, none⟩]

/- ### Concrete crawl environments used by the counterexamples and witnesses -/

/-- Root page of environment A: one good href and one href on which URL
resolution throws (as `new URL("http://[", base)` does). -/
def pageA : Page := ⟨"Root body", ["good", "http://["]⟩

/-- Environment A's fetches: the root succeeds, its first resolved sublink
fails with a network error. -/
def getA : String → HttpOutcome Page := fun u =>
  if u = "http://root/" then HttpOutcome.resp 200 "OK" pageA
  else if u = "http://root/good" then HttpOutcome.netErr "boom"
  else HttpOutcome.netErr "unreachable"

/-- Environment A's URL resolution: throws on the malformed href, resolves
everything else against the base by concatenation. -/
def resolveA : String → String → Except String String := fun s base =>
  if s = "http://[" then Except.error "Invalid URL"
  else Except.ok (base ++ s)

/-- URL resolution that always succeeds (all hrefs well-formed). -/
def resolveB : String → String → Except String String := fun s base =>
  Except.ok (base ++ s)

/-- Root page of environment B: two well-formed hrefs. -/
def pageB : Page := ⟨" Root body ", ["a", "b"]⟩

/-- Environment B's fetches: the root succeeds, sublink `a` fails, sublink
`b` succeeds. -/
def getB : String → HttpOutcome Page := fun u =>
  if u = "http://root/" then HttpOutcome.resp 200 "OK" pageB
  else if u = "http://root/a" then HttpOutcome.netErr "boom"
  else if u = "http://root/b" then HttpOutcome.resp 200 "OK" ⟨"B body", []⟩
  else HttpOutcome.netErr "unreachable"

/-- Root page of environment C: seven anchors whose first five hrefs contain
a duplicate. -/
def pageC : Page := ⟨"Root", ["a", "a", "b", "c", "d", "e", "f"]⟩

/-- Environment C's fetches: every page succeeds. -/
def getC : String → HttpOutcome Page := fun u =>
  if u = "http://root/" then HttpOutcome.resp 200 "OK" pageC
  else if u = "http://root/a" then HttpOutcome.resp 200 "OK" ⟨"A", []⟩
  else if u = "http://root/b" then HttpOutcome.resp 200 "OK" ⟨"B", []⟩
  else if u = "http://root/c" then HttpOutcome.resp 200 "OK" ⟨"C", []⟩
  else HttpOutcome.resp 200 "OK" ⟨"D", []⟩

/-- Root page of environment D: seven anchors with pairwise distinct hrefs. -/
def pageD : Page := ⟨"Root", ["a", "b", "c", "d", "e", "f", "g"]⟩

/-- Environment D's fetches: every page succeeds. -/
def getD : String → HttpOutcome Page := fun u =>
  if u = "http://root/" then HttpOutcome.resp 200 "OK" pageD
  else HttpOutcome.resp 200 "OK" ⟨"Sub", []⟩

/- ### axios reduction helpers -/

theorem axiosReq_2xx {α : Type} (errH : α → Option String) (s : Nat) (stx : String) (d : α)
    (h : 200 ≤ s ∧ s < 300) :
    axiosReq (HttpOutcome.resp s stx d) errH = Except.ok (s, stx, d) := by
  simp only [axiosReq, if_pos h]

theorem axiosReq_non2xx {α : Type} (errH : α → Option String) (s : Nat) (stx : String) (d : α)
    (h : ¬(200 ≤ s ∧ s < 300)) :
    axiosReq (HttpOutcome.resp s stx d) errH =
      Except.error ⟨statusFailureMessage s, some s, errH d⟩ := by
  simp only [axiosReq, if_neg h]

/- ### Claims about the crawler (C1, C2, C3) -/

/-- Claim C1, counterexample: the claim asserts that whenever the root fetch
succeeds and the fetch of one resolved sublink fails, the links mapping still
holds an error entry for it and entries for all other sublinks.  In
environment A the root fetch succeeds, the first sublink resolves and its
fetch fails — yet the whole crawl returns the error result, because the
second href makes `new URL` throw outside the inner try.  So the failed
sublink gets no entry at all. -/
theorem C1_counterexample :
    axiosReq (getA "http://root/") (fun _ => none) = Except.ok (200, "OK", pageA) ∧
    "good" ∈ pageA.hrefs.take 5 ∧
    resolveA "good" "http://root/" = Except.ok "http://root/good" ∧
    axiosReq (getA "http://root/good") (fun _ => none) =
      Except.error ⟨"boom", none, none⟩ ∧
    scrapeCore getA resolveA "http://root/" = Except.error "Invalid URL" ∧
    ¬ ∃ r, scrapeCore getA resolveA "http://root/" = Except.ok r := by
  refine ⟨rfl, by decide, rfl, rfl, rfl, ?_⟩
  rintro ⟨r, hr⟩
  rw [show scrapeCore getA resolveA "http://root/" = Except.error "Invalid URL" from rfl] at hr
  cases hr

/-- Claim C1 (amended): per-branch failure isolation of the crawler,
*provided every extracted href resolves*.  If the root fetch succeeds, every
href among the first five resolves, and the fetch of resolved sublink `u`
fails with error `e`, then the crawl succeeds, the root text is the trimmed
body text, `u` maps to the error description string, and every resolved
sublink has an entry. -/
theorem C1_crawler_isolation (get : String → HttpOutcome Page)
    (resolve : String → String → Except String String) (url : String)
    (code : Nat) (stx : String) (page : Page) (s u : String) (e : AxiosError)
    (hroot : axiosReq (get url) (fun _ => none) = Except.ok (code, stx, page))
    (hres : ∀ s' ∈ page.hrefs.take 5, ∃ u', resolve s' url = Except.ok u')
    (hs : s ∈ page.hrefs.take 5)
    (hu : resolve s url = Except.ok u)
    (hfail : axiosReq (get u) (fun _ => none) = Except.error e) :
    ∃ r, scrapeCore get resolve url = Except.ok r ∧
      r.main_text = trimStr page.bodyText ∧
      lookupKV r.sublinks u = some ("Error fetching sublink: " ++ e.message) ∧
      ∀ s' ∈ page.hrefs.take 5, ∀ u', resolve s' url = Except.ok u' →
        (lookupKV r.sublinks u').isSome = true := by
  refine ⟨⟨url, trimStr page.bodyText, crawlEntries get resolve url (page.hrefs.take 5) []⟩,
    ?_, rfl, ?_, ?_⟩
  · simp only [scrapeCore, hroot, crawlLoop_eq_entries get resolve url _ [] hres]
  · rw [crawlEntries_mem get resolve url (page.hrefs.take 5) [] s u hs hu]
    simp [fetchRender, hfail]
  · intro s' hs' u' hu'
    rw [crawlEntries_mem get resolve url (page.hrefs.take 5) [] s' u' hs' hu']
    rfl

/-- Claim C1, witness at environment B: sublink `a` fails, sublink `b`
succeeds, all hrefs resolve. -/
theorem C1_witness :
    ∃ r, scrapeCore getB resolveB "http://root/" = Except.ok r ∧
      r.main_text = trimStr pageB.bodyText ∧
      lookupKV r.sublinks "http://root/a" = some ("Error fetching sublink: boom") ∧
      ∀ s' ∈ pageB.hrefs.take 5, ∀ u', resolveB s' "http://root/" = Except.ok u' →
        (lookupKV r.sublinks u').isSome = true :=
  C1_crawler_isolation getB resolveB "http://root/" 200 "OK" pageB "a" "http://root/a"
    ⟨"boom", none, none⟩ rfl (fun s' _ => ⟨"http://root/" ++ s', rfl⟩) (by decide) rfl rfl

/-- Claim C2, counterexample: after a successful root fetch, the step that
resolves an extracted href to an absolute URL *can* make the whole call
return the error-shaped result — contrary to the claim that only a root
fetch failure can. -/
theorem C2_counterexample :
    axiosReq (getA "http://root/") (fun _ => none) = Except.ok (200, "OK", pageA) ∧
    scrapeUrlAndSublinks getA resolveA "http://root/" =
      ⟨[ContentItem.text "Error: Invalid URL"]⟩ := ⟨rfl, rfl⟩

/-- Claim C2 (amended): the call returns a full CrawlResult exactly when the
root fetch succeeds *and every extracted href resolves*; no sublink fetch
outcome is hypothesised, so the result is total even if every sublink fetch
fails.  Conversely the error-shaped result occurs only on a root fetch
failure or an href resolution failure. -/
theorem C2_root_success_independence (get : String → HttpOutcome Page)
    (resolve : String → String → Except String String) (url : String) :
    (∃ r, scrapeCore get resolve url = Except.ok r ∧
        scrapeUrlAndSublinks get resolve url =
          ⟨[ContentItem.resource ⟨url, some (encodeCrawlResult r), none, none⟩]⟩) ↔
    (∃ code stx page, axiosReq (get url) (fun _ => none) = Except.ok (code, stx, page) ∧
        ∀ s ∈ page.hrefs.take 5, ∃ u, resolve s url = Except.ok u) := by
  constructor
  · rintro ⟨r, hr, _⟩
    cases hq : axiosReq (get url) (fun _ => none) with
    | error e =>
      simp only [scrapeCore, hq] at hr
      exact Except.noConfusion hr
    | ok triple =>
      obtain ⟨code, stx, page⟩ := triple
      refine ⟨code, stx, page, rfl, ?_⟩
      simp only [scrapeCore, hq] at hr
      cases hloop : crawlLoop get resolve url (page.hrefs.take 5) [] with
      | error e => rw [hloop] at hr; cases hr
      | ok out => exact crawlLoop_ok_resolve get resolve url _ [] out hloop
  · rintro ⟨code, stx, page, hq, hres⟩
    refine ⟨⟨url, trimStr page.bodyText, crawlEntries get resolve url (page.hrefs.take 5) []⟩,
      ?_, ?_⟩
    · simp only [scrapeCore, hq, crawlLoop_eq_entries get resolve url _ [] hres]
    · simp only [scrapeUrlAndSublinks, scrapeCore, hq,
        crawlLoop_eq_entries get resolve url _ [] hres]

/-- Claim C2, witness at environment B: root succeeds, every href resolves,
one sublink fetch fails — a full CrawlResult is still returned. -/
theorem C2_witness :
    ∃ r, scrapeCore getB resolveB "http://root/" = Except.ok r ∧
      scrapeUrlAndSublinks getB resolveB "http://root/" =
        ⟨[ContentItem.resource ⟨"http://root/", some (encodeCrawlResult r), none, none⟩]⟩ :=
  (C2_root_success_independence getB resolveB "http://root/").mpr
    ⟨200, "OK", pageB, rfl, fun s' _ => ⟨"http://root/" ++ s', rfl⟩⟩

/-- Claim C3, counterexample: a root page with 7 anchors need not yield a
links mapping with exactly 5 keys — duplicate hrefs among the first five
collapse onto one key.  Environment C has 7 anchors but only 4 keys. -/
theorem C3_counterexample :
    pageC.hrefs.length = 7 ∧
    Except.map (fun r => r.sublinks.length) (scrapeCore getC resolveB "http://root/") =
      Except.ok 4 ∧
    (4 : Nat) ≠ 5 := ⟨rfl, rfl, by decide⟩

/-- Claim C3 (amended): when the root fetch succeeds and every href among the
first five resolves (to the list `us`), the loop attempts exactly
`min(K, 5)` sublink fetches (`us` lists the attempted URLs in order); every
key of the links mapping is one of the resolved URLs; and when the resolved
URLs are pairwise distinct the keys are exactly `us` — so a 7-anchor page
with distinct resolutions yields exactly 5 keys. -/
theorem C3_fanout_bound (get : String → HttpOutcome Page)
    (resolve : String → String → Except String String) (url : String)
    (code : Nat) (stx : String) (page : Page) (us : List String)
    (hroot : axiosReq (get url) (fun _ => none) = Except.ok (code, stx, page))
    (hres : resolvedSublinks resolve url (page.hrefs.take 5) = Except.ok us) :
    us.length = min page.hrefs.length 5 ∧
    ∃ r, scrapeCore get resolve url = Except.ok r ∧
      (∀ k, (lookupKV r.sublinks k).isSome = true → k ∈ us) ∧
      (us.Nodup → r.sublinks.map Prod.fst = us) := by
  have hresolve := resolvedSublinks_ok_resolve resolve url _ us hres
  constructor
  · rw [resolvedSublinks_length resolve url _ us hres, List.length_take]
    exact Nat.min_comm 5 _
  · refine ⟨⟨url, trimStr page.bodyText, crawlEntries get resolve url (page.hrefs.take 5) []⟩,
      ?_, ?_, ?_⟩
    · simp only [scrapeCore, hroot, crawlLoop_eq_entries get resolve url _ [] hresolve]
    · intro k hk
      rcases crawlEntries_keys get resolve url _ [] k hk with hacc | ⟨s, hsmem, hres'⟩
      · simp [lookupKV] at hacc
      · exact resolvedSublinks_mem resolve url _ us hres s k hsmem hres'
    · intro hnd
      have h := crawlEntries_keys_of_nodup get resolve url _ us [] hres (by simpa using hnd)
      simpa using h

/-- The five absolute URLs resolved in environment D. -/
def usD : List String :=
  ["http://root/a", "http://root/b", "http://root/c", "http://root/d", "http://root/e"]

/-- Claim C3, witness at environment D: 7 distinct anchors, 5 attempted
fetches, exactly 5 keys. -/
theorem C3_witness :
    usD.length = min pageD.hrefs.length 5 ∧
    ∃ r, scrapeCore getD resolveB "http://root/" = Except.ok r ∧
      (∀ k, (lookupKV r.sublinks k).isSome = true → k ∈ usD) ∧
      (usD.Nodup → r.sublinks.map Prod.fst = usD) :=
  C3_fanout_bound getD resolveB "http://root/" 200 "OK" pageD usD rfl rfl

/- ### Claim C4: key-value not-found distinction -/

/-- Claim C4: a KV read answered with upstream status 404 yields exactly the
text `Key '<k>' not found in Cloudflare KV namespace.` (for `missing-key`,
exactly the literal of the spec); that text contains "not found"; and every
other non-200 status yields a single text that contains "Error" and differs
from the not-found text. -/
theorem C4_kv_not_found_distinction (key : String) (ns : Option String) :
    (∀ (stx : String) (d : KVData),
        getFromCloudflareKV (HttpOutcome.resp 404 stx d) key ns =
          ⟨[ContentItem.text (kvNotFoundText key)]⟩) ∧
    kvNotFoundText "missing-key" = "Key 'missing-key' not found in Cloudflare KV namespace." ∧
    strContains (kvNotFoundText key) "not found" ∧
    ∀ (s : Nat) (stx : String) (d : KVData), s ≠ 200 → s ≠ 404 →
      ∃ m, getFromCloudflareKV (HttpOutcome.resp s stx d) key ns =
          ⟨[ContentItem.text ("Error retrieving from Cloudflare KV: " ++ m)]⟩ ∧
        strContains ("Error retrieving from Cloudflare KV: " ++ m) "Error" ∧
        "Error retrieving from Cloudflare KV: " ++ m ≠ kvNotFoundText key := by
  refine ⟨fun stx d => rfl, rfl, strContains_not_found key, ?_⟩
  intro s stx d hs200 hs404
  by_cases h2 : 200 ≤ s ∧ s < 300
  · refine ⟨"Request failed: " ++ toString s ++ " - " ++ stx, ?_,
      strContains_kv_error _, kv_error_text_ne_not_found _ key⟩
    simp only [getFromCloudflareKV, getFromCloudflareKVTry,
      axiosReq_2xx (fun d => d.errorsHead) s stx d h2, if_neg hs200, if_neg hs404]
    rfl
  · refine ⟨bestEffort ⟨statusFailureMessage s, some s, d.errorsHead⟩, ?_,
      strContains_kv_error _, kv_error_text_ne_not_found _ key⟩
    simp only [getFromCloudflareKV, getFromCloudflareKVTry,
      axiosReq_non2xx (fun d => d.errorsHead) s stx d h2]
    rw [if_neg (fun h : some s = some 404 => hs404 (Option.some.inj h))]

/-- Claim C4, witness: a 404 on `missing-key` yields exactly the spec's
literal, and a 500 yields an "Error …" text distinct from it. -/
theorem C4_witness :
    getFromCloudflareKV (HttpOutcome.resp 404 "Not Found" ⟨KVValue.str "", none⟩)
        "missing-key" none =
      ⟨[ContentItem.text "Key 'missing-key' not found in Cloudflare KV namespace."]⟩ ∧
    strContains (kvNotFoundText "missing-key") "not found" ∧
    ∃ m, getFromCloudflareKV (HttpOutcome.resp 500 "Internal Server Error"
          ⟨KVValue.str "", none⟩) "missing-key" none =
        ⟨[ContentItem.text ("Error retrieving from Cloudflare KV: " ++ m)]⟩ ∧
      strContains ("Error retrieving from Cloudflare KV: " ++ m) "Error" ∧
      "Error retrieving from Cloudflare KV: " ++ m ≠ kvNotFoundText "missing-key" := by
  obtain ⟨h404, hmk, hnf, hother⟩ := C4_kv_not_found_distinction "missing-key" none
  refine ⟨?_, hnf, hother 500 "Internal Server Error" ⟨KVValue.str "", none⟩
    (by decide) (by decide)⟩
  rw [h404 "Not Found" ⟨KVValue.str "", none⟩, hmk]

/- ### Claim C5: validation-failure surfacing (spec-modelled gateway) -/

/-- Claim C5: for every registered tool schema and every malformed raw input
(missing required field or type mismatch — i.e. any input the validator
rejects), `invoke` returns a normal ToolResult whose single content item is
the text `Error: <field> <reason>`, which contains "Error"; the failure is
data, never a protocol-level error. -/
theorem C5_validation_failure_surfacing (schema : List FieldSpec)
    (handler : List (String × RawValue) → ToolResult)
    (raw : List (String × RawValue)) (f reason : String)
    (hval : validateInput schema raw = Except.error (f, reason)) :
    invoke schema handler raw = ⟨[ContentItem.text ("Error: " ++ f ++ " " ++ reason)]⟩ ∧
    strContains ("Error: " ++ f ++ " " ++ reason) "Error" := by
  constructor
  · simp only [invoke, hval]
  · exact strContains_append_left _ reason _
      (strContains_append_left _ " " _ (strContains_error_head f))

/-- Claim C5, witness: invoking `summarizeText` with an empty input object
fails validation on the required `text` field and surfaces the error text. -/
theorem C5_witness :
    invoke summarizeTextSchema (fun _ => ⟨[]⟩) [] =
      ⟨[ContentItem.text ("Error: " ++ "text" ++ " " ++ "Required")]⟩ ∧
    strContains ("Error: " ++ "text" ++ " " ++ "Required") "Error" :=
  C5_validation_failure_surfacing summarizeTextSchema (fun _ => ⟨[]⟩) [] "text" "Required" rfl

/- ### Claim C6: handler-failure wrapping -/

/-- Claim C6, counterexample: the claim asserts every handler failure is
surfaced as `Text "Error: " + bestEffortMessage`.  The upload handler instead
uses the prefix `Error uploading to R2: `, so the produced text differs from
the claimed one. -/
theorem C6_counterexample :
    uploadAudioToR2 (HttpOutcome.netErr "boom") "AAAA" none none "id-1" =
      ⟨[ContentItem.text "Error uploading to R2: boom"]⟩ ∧
    bestEffort ⟨"boom", none, none⟩ = "boom" ∧
    "Error uploading to R2: boom" ≠ "Error: " ++ bestEffort ⟨"boom", none, none⟩ :=
  ⟨rfl, rfl, by decide⟩

/-- Claim C6 (amended): every failure of a handler's awaited operation is
caught and the call still returns a well-formed single-text ToolResult, but
the text's prefix is tool-specific (`Error: ` for TTS, summarize and scrape;
`Error uploading to R2: ` for the upload; `Error retrieving from Cloudflare
KV: ` for the KV read outside its 404 path), and the crawler's wrapper uses
the raw failure message without preferring a provider message. -/
theorem C6_handler_failure_wrapping :
    (∀ (o : HttpOutcome TtsData) (audioId : String) (e : AxiosError),
        axiosReq o (fun d => d.errorsHead) = Except.error e →
        fetchAudioAndSave o audioId = ⟨[ContentItem.text ("Error: " ++ bestEffort e)]⟩) ∧
    (∀ (o : HttpOutcome SummaryData) (e : AxiosError),
        axiosReq o (fun d => d.errorsHead) = Except.error e →
        summarizeText o = ⟨[ContentItem.text ("Error: " ++ bestEffort e)]⟩) ∧
    (∀ (get : String → HttpOutcome Page) (resolve : String → String → Except String String)
        (url : String) (e : AxiosError),
        axiosReq (get url) (fun _ => none) = Except.error e →
        scrapeUrlAndSublinks get resolve url =
          ⟨[ContentItem.text ("Error: " ++ e.message)]⟩) ∧
    (∀ (o : HttpOutcome UploadData) (fileData : String) (fileName contentType : Option String)
        (uuidStr : String) (e : AxiosError),
        axiosReq o (fun d => d.errorsHead) = Except.error e →
        uploadAudioToR2 o fileData fileName contentType uuidStr =
          ⟨[ContentItem.text ("Error uploading to R2: " ++ bestEffort e)]⟩) ∧
    (∀ (o : HttpOutcome KVData) (key : String) (ns : Option String) (e : AxiosError),
        axiosReq o (fun d => d.errorsHead) = Except.error e →
        e.responseStatus ≠ some 404 →
        getFromCloudflareKV o key ns =
          ⟨[ContentItem.text ("Error retrieving from Cloudflare KV: " ++ bestEffort e)]⟩) := by
  refine ⟨?_, ?_, ?_, ?_, ?_⟩
  · intro o audioId e h
    simp only [fetchAudioAndSave, fetchAudioAndSaveTry, h]
  · intro o e h
    simp only [summarizeText, summarizeTextTry, h]
  · intro get resolve url e h
    simp only [scrapeUrlAndSublinks, scrapeCore, h]
  · intro o fileData fileName contentType uuidStr e h
    simp only [uploadAudioToR2, uploadAudioToR2Try, h]
  · intro o key ns e h hne
    simp only [getFromCloudflareKV, getFromCloudflareKVTry, h]
    rw [if_neg hne]

/-- Claim C6, witness: each handler wraps a concrete network failure into its
single-text result. -/
theorem C6_witness :
    fetchAudioAndSave (HttpOutcome.netErr "boom") "id" =
      ⟨[ContentItem.text ("Error: " ++ bestEffort ⟨"boom", none, none⟩)]⟩ ∧
    summarizeText (HttpOutcome.netErr "boom") =
      ⟨[ContentItem.text ("Error: " ++ bestEffort ⟨"boom", none, none⟩)]⟩ ∧
    scrapeUrlAndSublinks (fun _ => HttpOutcome.netErr "boom") resolveB "http://root/" =
      ⟨[ContentItem.text ("Error: " ++ "boom")]⟩ ∧
    uploadAudioToR2 (HttpOutcome.netErr "boom") "AAAA" none none "id" =
      ⟨[ContentItem.text ("Error uploading to R2: " ++ bestEffort ⟨"boom", none, none⟩)]⟩ ∧
    getFromCloudflareKV (HttpOutcome.netErr "boom") "k" none =
      ⟨[ContentItem.text ("Error retrieving from Cloudflare KV: " ++
        bestEffort ⟨"boom", none, none⟩)]⟩ := by
  obtain ⟨c1, c2, c3, c4, c5⟩ := C6_handler_failure_wrapping
  exact ⟨c1 (HttpOutcome.netErr "boom") "id" ⟨"boom", none, none⟩ rfl,
    c2 (HttpOutcome.netErr "boom") ⟨"boom", none, none⟩ rfl,
    c3 (fun _ => HttpOutcome.netErr "boom") resolveB "http://root/" ⟨"boom", none, none⟩ rfl,
    c4 (HttpOutcome.netErr "boom") "AAAA" none none "id" ⟨"boom", none, none⟩ rfl,
    c5 (HttpOutcome.netErr "boom") "k" none ⟨"boom", none, none⟩ rfl (by decide)⟩

/- ### Claim C7: upstream success classification -/

/-- Claim C7, counterexample: the claim says any status other than 200 —
including 201 — is classified as a failure.  The upload handler accepts 201
as success and returns the two-item success envelope, not an error text. -/
theorem C7_counterexample :
    uploadAudioToR2 (HttpOutcome.resp 201 "Created" ⟨none⟩) "AAAA" (some "f.mp3")
        (some "audio/mp3") "id-0" =
      ⟨[ContentItem.text
          "File successfully uploaded to R2 storage.\nFile: f.mp3\nURL: https://pub-3bf40eb073024dc2846e1518b851c583.r2.dev/f.mp3\nType: audio/mp3",
        ContentItem.resource
          ⟨"https://pub-3bf40eb073024dc2846e1518b851c583.r2.dev/f.mp3", none,
            some "AAAA", some "audio/mp3"⟩]⟩ ∧
    ∀ m : String,
      uploadAudioToR2 (HttpOutcome.resp 201 "Created" ⟨none⟩) "AAAA" (some "f.mp3")
          (some "audio/mp3") "id-0" ≠
        ⟨[ContentItem.text ("Error uploading to R2: " ++ m)]⟩ := by
  refine ⟨rfl, fun m h => ?_⟩
  have h2 : (uploadAudioToR2 (HttpOutcome.resp 201 "Created" ⟨none⟩) "AAAA" (some "f.mp3")
      (some "audio/mp3") "id-0").content.length = 2 := rfl
  rw [h] at h2
  simp at h2

/-- Claim C7 (amended): status 200 is the sole success condition for the TTS,
summarization and KV-read calls; the upload call alone also accepts 201 as
success; every other status is classified as a failure (a single error-text
result), and every non-2xx status rejects inside axios carrying the status
code on the error. -/
theorem C7_status_classification :
    (∀ (s : Nat) (stx : String) (d : TtsData) (audioId : String), s ≠ 200 →
        ∃ m, fetchAudioAndSave (HttpOutcome.resp s stx d) audioId =
          ⟨[ContentItem.text ("Error: " ++ m)]⟩) ∧
    (∀ (s : Nat) (stx : String) (d : SummaryData), s ≠ 200 →
        ∃ m, summarizeText (HttpOutcome.resp s stx d) =
          ⟨[ContentItem.text ("Error: " ++ m)]⟩) ∧
    (∀ (s : Nat) (stx : String) (d : KVData) (key : String) (ns : Option String),
        s ≠ 200 → s ≠ 404 →
        ∃ m, getFromCloudflareKV (HttpOutcome.resp s stx d) key ns =
          ⟨[ContentItem.text ("Error retrieving from Cloudflare KV: " ++ m)]⟩) ∧
    (∀ (stx : String) (d : UploadData) (fileData : String) (fn ct : Option String)
        (uuidStr : String),
        ∃ txt res, uploadAudioToR2 (HttpOutcome.resp 201 stx d) fileData fn ct uuidStr =
          ⟨[ContentItem.text txt, ContentItem.resource res]⟩ ∧ res.blob = some fileData) ∧
    (∀ (s : Nat) (stx : String) (d : UploadData) (fileData : String) (fn ct : Option String)
        (uuidStr : String), s ≠ 200 → s ≠ 201 →
        ∃ m, uploadAudioToR2 (HttpOutcome.resp s stx d) fileData fn ct uuidStr =
          ⟨[ContentItem.text ("Error uploading to R2: " ++ m)]⟩) ∧
    (∀ (α : Type) (errH : α → Option String) (s : Nat) (stx : String) (d : α),
        ¬(200 ≤ s ∧ s < 300) →
        axiosReq (HttpOutcome.resp s stx d) errH =
          Except.error ⟨statusFailureMessage s, some s, errH d⟩) := by
  refine ⟨?_, ?_, ?_, ?_, ?_, fun α errH s stx d h => axiosReq_non2xx errH s stx d h⟩
  · intro s stx d audioId hs
    by_cases h2 : 200 ≤ s ∧ s < 300
    · refine ⟨"Request failed: " ++ toString s ++ " - " ++ stx, ?_⟩
      simp only [fetchAudioAndSave, fetchAudioAndSaveTry,
        axiosReq_2xx (fun d => d.errorsHead) s stx d h2, if_neg hs]
      rfl
    · refine ⟨bestEffort ⟨statusFailureMessage s, some s, d.errorsHead⟩, ?_⟩
      simp only [fetchAudioAndSave, fetchAudioAndSaveTry,
        axiosReq_non2xx (fun d => d.errorsHead) s stx d h2]
  · intro s stx d hs
    by_cases h2 : 200 ≤ s ∧ s < 300
    · refine ⟨"Request failed: " ++ toString s ++ " - " ++ stx, ?_⟩
      simp only [summarizeText, summarizeTextTry,
        axiosReq_2xx (fun d => d.errorsHead) s stx d h2, if_neg hs]
      rfl
    · refine ⟨bestEffort ⟨statusFailureMessage s, some s, d.errorsHead⟩, ?_⟩
      simp only [summarizeText, summarizeTextTry,
        axiosReq_non2xx (fun d => d.errorsHead) s stx d h2]
  · intro s stx d key ns hs200 hs404
    by_cases h2 : 200 ≤ s ∧ s < 300
    · refine ⟨"Request failed: " ++ toString s ++ " - " ++ stx, ?_⟩
      simp only [getFromCloudflareKV, getFromCloudflareKVTry,
        axiosReq_2xx (fun d => d.errorsHead) s stx d h2, if_neg hs200, if_neg hs404]
      rfl
    · refine ⟨bestEffort ⟨statusFailureMessage s, some s, d.errorsHead⟩, ?_⟩
      simp only [getFromCloudflareKV, getFromCloudflareKVTry,
        axiosReq_non2xx (fun d => d.errorsHead) s stx d h2]
      rw [if_neg (fun h : some s = some 404 => hs404 (Option.some.inj h))]
  · intro stx d fileData fn ct uuidStr
    exact ⟨_, _, rfl, rfl⟩
  · intro s stx d fileData fn ct uuidStr hs200 hs201
    by_cases h2 : 200 ≤ s ∧ s < 300
    · refine ⟨"Upload failed: " ++ toString s ++ " - " ++ stx, ?_⟩
      simp only [uploadAudioToR2, uploadAudioToR2Try,
        axiosReq_2xx (fun d => d.errorsHead) s stx d h2]
      rw [if_neg (fun h : s = 200 ∨ s = 201 => h.elim hs200 hs201)]
      rfl
    · refine ⟨bestEffort ⟨statusFailureMessage s, some s, d.errorsHead⟩, ?_⟩
      simp only [uploadAudioToR2, uploadAudioToR2Try,
        axiosReq_non2xx (fun d => d.errorsHead) s stx d h2]

/-- Claim C7, witness: concrete instances of every clause — 500 is a failure
for TTS, summarize and KV; 201 is a success and 202 a failure for the
upload; a non-2xx axios call carries its status code. -/
theorem C7_witness :
    (∃ m, fetchAudioAndSave (HttpOutcome.resp 500 "ISE" ⟨none, none⟩) "id" =
      ⟨[ContentItem.text ("Error: " ++ m)]⟩) ∧
    (∃ m, summarizeText (HttpOutcome.resp 500 "ISE" ⟨none, none⟩) =
      ⟨[ContentItem.text ("Error: " ++ m)]⟩) ∧
    (∃ m, getFromCloudflareKV (HttpOutcome.resp 500 "ISE" ⟨KVValue.str "", none⟩) "k" none =
      ⟨[ContentItem.text ("Error retrieving from Cloudflare KV: " ++ m)]⟩) ∧
    (∃ txt res, uploadAudioToR2 (HttpOutcome.resp 201 "Created" ⟨none⟩) "AAAA" none none "id" =
      ⟨[ContentItem.text txt, ContentItem.resource res]⟩ ∧ res.blob = some "AAAA") ∧
    (∃ m, uploadAudioToR2 (HttpOutcome.resp 202 "Accepted" ⟨none⟩) "AAAA" none none "id" =
      ⟨[ContentItem.text ("Error uploading to R2: " ++ m)]⟩) ∧
    axiosReq (HttpOutcome.resp 500 "ISE" (⟨none, none⟩ : TtsData)) (fun d => d.errorsHead) =
      Except.error ⟨statusFailureMessage 500, some 500, none⟩ := by
  obtain ⟨c1, c2, c3, c4, c5, c6⟩ := C7_status_classification
  exact ⟨c1 500 "ISE" ⟨none, none⟩ "id" (by decide), c2 500 "ISE" ⟨none, none⟩ (by decide),
    c3 500 "ISE" ⟨KVValue.str "", none⟩ "k" none (by decide) (by decide),
    c4 "Created" ⟨none⟩ "AAAA" none none "id",
    c5 202 "Accepted" ⟨none⟩ "AAAA" none none "id" (by decide) (by decide),
    c6 TtsData (fun d => d.errorsHead) 500 "ISE" ⟨none, none⟩ (by decide)⟩

/- ### Claim C8: media-type classification -/

/-- Claim C8: with no declared content type, a base64 payload starting with
the WAV signature prefix `UklGR` resolves to mime type `audio/wav` with
extension `wav`, and any other payload resolves to the default `audio/mp3`
with extension `mp3`; the upload handler's success resource carries exactly
the resolved mime type. -/
theorem C8_media_type_classification (fileData : String) (stx : String) (d : UploadData)
    (uuidStr : String) :
    detectContentType fileData none =
      (if isPrefixB "UklGR".data fileData.data then "audio/wav" else "audio/mp3") ∧
    extensionFor (detectContentType fileData none) =
      (if isPrefixB "UklGR".data fileData.data then "wav" else "mp3") ∧
    ∃ txt uri,
      uploadAudioToR2 (HttpOutcome.resp 200 stx d) fileData none none uuidStr =
        ⟨[ContentItem.text txt,
          ContentItem.resource
            ⟨uri, none, some fileData, some (detectContentType fileData none)⟩]⟩ := by
  refine ⟨rfl, ?_, ⟨_, _, rfl⟩⟩
  by_cases h : isPrefixB "UklGR".data fileData.data = true
  · rw [show detectContentType fileData none =
        (if isPrefixB "UklGR".data fileData.data then "audio/wav" else "audio/mp3") from rfl,
      if_pos h, if_pos h]
    decide
  · rw [show detectContentType fileData none =
        (if isPrefixB "UklGR".data fileData.data then "audio/wav" else "audio/mp3") from rfl,
      if_neg h, if_neg h]
    decide

/- ### Claim C9: payload round-trip -/

/-- Claim C9: the resource descriptor of a successful upload carries the
original base64 input string unchanged as its `blob`, for both accepted
statuses; likewise the TTS handler's resource `blob` is exactly the base64
audio taken from the upstream response. -/
theorem C9_payload_round_trip :
    (∀ (stx : String) (d : UploadData) (fileData : String) (fn ct : Option String)
        (uuidStr : String),
      ∃ txt uri mt, uploadAudioToR2 (HttpOutcome.resp 200 stx d) fileData fn ct uuidStr =
        ⟨[ContentItem.text txt, ContentItem.resource ⟨uri, none, some fileData, mt⟩]⟩) ∧
    (∀ (stx : String) (d : UploadData) (fileData : String) (fn ct : Option String)
        (uuidStr : String),
      ∃ txt uri mt, uploadAudioToR2 (HttpOutcome.resp 201 stx d) fileData fn ct uuidStr =
        ⟨[ContentItem.text txt, ContentItem.resource ⟨uri, none, some fileData, mt⟩]⟩) ∧
    (∀ (stx : String) (d : TtsData) (audio audioId : String),
      jsTruthyStr (d.result.bind (fun r => r.audio)) = some audio →
      fetchAudioAndSave (HttpOutcome.resp 200 stx d) audioId =
        ⟨[ContentItem.text ("Generated audio ID: " ++ audioId),
          ContentItem.resource
            ⟨"data:audio/mp3;base64," ++ audio, none, some audio, some "audio/mp3"⟩]⟩) := by
  refine ⟨fun stx d fileData fn ct uuidStr => ⟨_, _, _, rfl⟩,
    fun stx d fileData fn ct uuidStr => ⟨_, _, _, rfl⟩, ?_⟩
  intro stx d audio audioId h
  have hax : axiosReq (HttpOutcome.resp 200 stx d) (fun d => d.errorsHead) =
      Except.ok (200, stx, d) := rfl
  simp [fetchAudioAndSave, fetchAudioAndSaveTry, hax, h]

/-- Claim C9, witness: a concrete payload `QUJD` survives both the upload
path and the TTS path unchanged. -/
theorem C9_witness :
    (∃ txt uri mt, uploadAudioToR2 (HttpOutcome.resp 200 "OK" ⟨none⟩) "QUJD" none none "id" =
      ⟨[ContentItem.text txt, ContentItem.resource ⟨uri, none, some "QUJD", mt⟩]⟩) ∧
    (∃ txt uri mt, uploadAudioToR2 (HttpOutcome.resp 201 "Created" ⟨none⟩) "QUJD" none none "id" =
      ⟨[ContentItem.text txt, ContentItem.resource ⟨uri, none, some "QUJD", mt⟩]⟩) ∧
    fetchAudioAndSave (HttpOutcome.resp 200 "OK" ⟨some ⟨some "QUJD"⟩, none⟩) "id" =
      ⟨[ContentItem.text ("Generated audio ID: " ++ "id"),
        ContentItem.resource
          ⟨"data:audio/mp3;base64," ++ "QUJD", none, some "QUJD", some "audio/mp3"⟩]⟩ := by
  obtain ⟨c1, c2, c3⟩ := C9_payload_round_trip
  exact ⟨c1 "OK" ⟨none⟩ "QUJD" none none "id", c2 "Created" ⟨none⟩ "QUJD" none none "id",
    c3 "OK" ⟨some ⟨some "QUJD"⟩, none⟩ "QUJD" "id" rfl⟩

/- ### Claim C10: 200 with missing payload -/

/-- Claim C10: an upstream 200 whose body lacks the expected payload field
is not a success — `fetchAudioAndSave` yields the single error text
`Error: Audio data not found in the response.` and `summarizeText` yields
`Error: Summary data not found in the response.`, both containing "Error". -/
theorem C10_missing_payload_edge :
    (∀ (stx : String) (d : TtsData) (audioId : String),
        jsTruthyStr (d.result.bind (fun r => r.audio)) = none →
        fetchAudioAndSave (HttpOutcome.resp 200 stx d) audioId =
          ⟨[ContentItem.text "Error: Audio data not found in the response."]⟩ ∧
        strContains "Error: Audio data not found in the response." "Error") ∧
    (∀ (stx : String) (d : SummaryData),
        jsTruthyStr (d.result.bind (fun r => r.summary)) = none →
        summarizeText (HttpOutcome.resp 200 stx d) =
          ⟨[ContentItem.text "Error: Summary data not found in the response."]⟩ ∧
        strContains "Error: Summary data not found in the response." "Error") := by
  constructor
  · intro stx d audioId h
    have hax : axiosReq (HttpOutcome.resp 200 stx d) (fun d => d.errorsHead) =
        Except.ok (200, stx, d) := rfl
    refine ⟨?_, ⟨[], ": Audio data not found in the response.".data, by decide⟩⟩
    simp [fetchAudioAndSave, fetchAudioAndSaveTry, hax, h]
    rfl
  · intro stx d h
    have hax : axiosReq (HttpOutcome.resp 200 stx d) (fun d => d.errorsHead) =
        Except.ok (200, stx, d) := rfl
    refine ⟨?_, ⟨[], ": Summary data not found in the response.".data, by decide⟩⟩
    simp [summarizeText, summarizeTextTry, hax, h]
    rfl

/-- Claim C10, witness: a 200 response with no `result` object (TTS) and a
200 response whose `result` lacks `summary` (summarization) both produce the
expected error texts. -/
theorem C10_witness :
    (fetchAudioAndSave (HttpOutcome.resp 200 "OK" ⟨none, none⟩) "id" =
        ⟨[ContentItem.text "Error: Audio data not found in the response."]⟩ ∧
      strContains "Error: Audio data not found in the response." "Error") ∧
    (summarizeText (HttpOutcome.resp 200 "OK" ⟨some ⟨none⟩, none⟩) =
        ⟨[ContentItem.text "Error: Summary data not found in the response."]⟩ ∧
      strContains "Error: Summary data not found in the response." "Error") := by
  obtain ⟨c1, c2⟩ := C10_missing_payload_edge
  exact ⟨c1 "OK" ⟨none, none⟩ "id" rfl, c2 "OK" ⟨some ⟨none⟩, none⟩ rfl⟩

/-- Claim C8, witness: a payload starting with `UklGR` resolves to
`audio/wav`/`wav`, and a payload without the signature resolves to
`audio/mp3`/`mp3`. -/
theorem C8_witness :
    detectContentType "UklGRAAA" none = "audio/wav" ∧
    extensionFor (detectContentType "UklGRAAA" none) = "wav" ∧
    detectContentType "QUJD" none = "audio/mp3" ∧
    extensionFor (detectContentType "QUJD" none) = "mp3" ∧
    ∃ txt uri,
      uploadAudioToR2 (HttpOutcome.resp 200 "OK" ⟨none⟩) "UklGRAAA" none none "id" =
        ⟨[ContentItem.text txt,
          ContentItem.resource
            ⟨uri, none, some "UklGRAAA", some (detectContentType "UklGRAAA" none)⟩]⟩ := by
  obtain ⟨h1, h2, h3⟩ := C8_media_type_classification "UklGRAAA" "OK" ⟨none⟩ "id"
  obtain ⟨g1, g2, _⟩ := C8_media_type_classification "QUJD" "OK" ⟨none⟩ "id"
  refine ⟨?_, ?_, ?_, ?_, h3⟩
  · rw [h1, if_pos (by decide)]
  · rw [h2, if_pos (by decide)]
  · rw [g1, if_neg (by decide)]
  · rw [g2, if_neg (by decide)]
